import Mathlib

/-!
Verification model of `translation.py`: an OSM-to-render-list pipeline.

Conventions of the embedding:
* Python numbers are modelled as `Rat` (exact rationals); the only
  transcendental computation (`lonLatToMeters`) is modelled over `ℝ`.
* Python dicts are insertion-ordered association lists; `d[k]` / `d.get`
  become `dget` / `dgetD`, with the last binding of a key winning, as in a
  Python dict built by later writes overriding earlier ones.
* Python exceptions are modelled with `Except Unit` / `Option`: a raised
  exception is `Except.error ()` (resp. `none`) and propagates through
  `bind`, exactly as an uncaught exception propagates in Python.
* The HTTP + JSON layer of `get_elevation` is an injected function
  `fetch : Rat → Rat → Except Unit ElevData`: `Except.error` models
  `requests.get` or `r.json()` raising, `Except.ok d` models a parsed
  JSON payload `d`.
-/

/-- Tag mappings (Python dicts of strings) as insertion-ordered association lists. -/
abbrev Tags := List (String × String)

/-- Python `d[k]` / `d.get(k)` on a string-keyed dict: the last binding of `k`
wins (dict construction overrides earlier duplicates). `none` models a missing
key (`KeyError` for `d[k]`). -/
def dget {α : Type} (d : List (String × α)) (k : String) : Option α :=
  (d.reverse.find? (fun e => e.1 == k)).map (fun e => e.2)

/-- Python `d.get(k, dflt)`. -/
def dgetD {α : Type} (d : List (String × α)) (k : String) (dflt : α) : α :=
  (dget d k).getD dflt

/-- Python `k in d` for a string-keyed dict. -/
def has_key {α : Type} (d : List (String × α)) (k : String) : Bool :=
  d.any (fun e => e.1 == k)

/-! ### A model of Python `float(str)` on decimal literals

`float` accepts optional surrounding whitespace, an optional sign, a decimal
mantissa (digits, with an optional fractional part, at least one digit in
total) and an optional exponent part.  The special forms (`inf`, `nan`,
underscore separators) are outside the inputs this development evaluates. -/

/-- Value of a digit string, most significant first. -/
def digits_val (cs : List Char) : Nat :=
  cs.foldl (fun a c => a * 10 + (c.toNat - ('0').toNat)) 0

/-- Parse a decimal mantissa `digits[.digits]` (at least one digit overall);
returns its value and the unconsumed rest. -/
def parse_mantissa (cs : List Char) : Option (Rat × List Char) :=
  let ip := cs.takeWhile (fun c => c.isDigit)
  let r1 := cs.dropWhile (fun c => c.isDigit)
  match r1 with
  | '.' :: r2 =>
      let fp := r2.takeWhile (fun c => c.isDigit)
      let r3 := r2.dropWhile (fun c => c.isDigit)
      if ip.isEmpty && fp.isEmpty then none
      else some ((digits_val ip : Rat) + (digits_val fp : Rat) / (10 : Rat) ^ fp.length, r3)
  | _ => if ip.isEmpty then none else some ((digits_val ip : Rat), r1)

/-- Parse an optional exponent part `e[+-]digits` closing the literal; returns
the multiplier `10^e`. -/
def parse_exponent (cs : List Char) : Option Rat :=
  match cs with
  | [] => some 1
  | 'e' :: r =>
      let sr : Int × List Char :=
        match r with
        | '+' :: t => (1, t)
        | '-' :: t => (-1, t)
        | t => (1, t)
      let ds := sr.2.takeWhile (fun c => c.isDigit)
      let r3 := sr.2.dropWhile (fun c => c.isDigit)
      if ds.isEmpty || !r3.isEmpty then none
      else if sr.1 < 0 then some (1 / (10 : Rat) ^ digits_val ds)
      else some ((10 : Rat) ^ digits_val ds)
  | _ => none

/-- Drop leading and trailing whitespace (Python `str.strip`). -/
def strip_chars (cs : List Char) : List Char :=
  ((cs.dropWhile Char.isWhitespace).reverse.dropWhile Char.isWhitespace).reverse

/-- Python `str.lower` (ASCII case folding suffices for the inputs modelled). -/
def lower_str (s : String) : String :=
  ⟨s.data.map Char.toLower⟩

/-- Python `s.replace("m", "")`: a one-character pattern replaced by the empty
string removes every occurrence of that character. -/
def remove_m_chars (s : String) : String :=
  ⟨s.data.filter (fun c => !(c == 'm'))⟩

/-- Python `str.strip` on a string. -/
def strip_str (s : String) : String :=
  ⟨strip_chars s.data⟩

/-- Model of CPython `float(s)` on decimal literals, `none` when `float`
raises `ValueError`. Note the exponent marker is matched lowercase only
because every call site lowercases its input first. -/
def py_float (s : String) : Option Rat :=
  let go : List Char → Option Rat := fun cs =>
    match parse_mantissa cs with
    | none => none
    | some (m, r) =>
        match parse_exponent r with
        | none => none
        | some e => some (m * e)
  match (strip_str s).data with
  | '+' :: r => go r
  | '-' :: r => (go r).map (fun x => -x)
  | r => go r

/-! ### translation.py : parse_height -/

/-- `safe_float` from `parse_height`:
`float(value.lower().replace("m", "").strip())`, with any exception mapped to
`None`. -/
def safe_float (value : String) : Option Rat :=
  py_float (strip_str (remove_m_chars (lower_str value)))

/-- The height/min_height/effective_height triple returned by `parse_height`
(and synthesized by `process_element` for non-buildings). -/
structure HeightInfo where
  height : Rat
  min_height : Rat
  effective_height : Rat
deriving DecidableEq

/-- `parse_height(tags)` from translation.py. -/
def parse_height (tags : Tags) : HeightInfo :=
  let height := safe_float (dgetD tags "height" "")
  let min_height := safe_float (dgetD tags "min_height" (dgetD tags "building:min_height" ""))
  let levels := safe_float (dgetD tags "building:levels" "")
  let min_levels := safe_float (dgetD tags "building:min_level" "")
  let height :=
    match height, levels with
    | none, some l => some (l * 3)
    | h, _ => h
  let min_height :=
    match min_height, min_levels with
    | none, some ml => some (ml * 3)
    | mh, _ => mh
  let height := height.getD (if has_key tags "building" then 10 else 0)
  let min_height := min_height.getD 0
  { height := height
    min_height := min_height
    effective_height := max 0 (height - min_height) }

/-- The zero HeightInfo `process_element` synthesizes for non-building
elements. -/
def zero_height_info : HeightInfo :=
  { height := 0, min_height := 0, effective_height := 0 }

/-! ### translation.py : extraction -/

/-- A latitude/longitude pair in degrees. -/
structure GeoPoint where
  lat : Rat
  lon : Rat
deriving DecidableEq

/-- A record of the input `elements` list: a node, a way, or a record of any
other type (ignored by extraction). -/
inductive OsmElement where
  | node (id : Int) (lat lon : Rat)
  | way (id : Int) (nodes : List Int) (tags : Tags)
  | other
deriving DecidableEq

/-- The parsed top-level JSON object. `elements = none` models a JSON object
without an `elements` key (`osm_json.get('elements', [])` then yields `[]`). -/
structure OsmJson where
  elements : Option (List OsmElement)
deriving DecidableEq

/-- The per-way record built by `extract_elements`. -/
structure ExtractedElement where
  points : List GeoPoint
  tags : Tags
  id : Int
  type : String
deriving DecidableEq

/-- The dict comprehension `{n['id']: n for n in elements if n['type'] == 'node'}`
as an association list (later nodes with a duplicate id override earlier ones
via the last-binding-wins lookup below). -/
def node_table (elements : List OsmElement) : List (Int × GeoPoint) :=
  elements.filterMap (fun el =>
    match el with
    | .node i la lo => some (i, ⟨la, lo⟩)
    | _ => none)

/-- `nid in nodes` / `nodes[nid]` on the node table. -/
def lookup_node (tbl : List (Int × GeoPoint)) (nid : Int) : Option GeoPoint :=
  (tbl.reverse.find? (fun e => e.1 == nid)).map (fun e => e.2)

/-- The body of the `extract_elements` loop for a single record: ways get
their references resolved (unresolvable ones dropped by the `if nid in nodes`
filter) and are kept only when `points` is non-empty; records of other types
produce nothing. -/
def extract_one (nodes : List (Int × GeoPoint)) (el : OsmElement) :
    Option ExtractedElement :=
  match el with
  | .way i ns tg =>
      let points := ns.filterMap (lookup_node nodes)
      if points.isEmpty then none
      else some { points := points, tags := tg, id := i, type := "way" }
  | _ => none

/-- `extract_elements(osm_json)` from translation.py. -/
def extract_elements (osm_json : OsmJson) : List ExtractedElement :=
  let elements := osm_json.elements.getD []
  let nodes := node_table elements
  elements.filterMap (extract_one nodes)

/-- `is_building(element)` from translation.py. -/
def is_building (element : ExtractedElement) : Bool :=
  has_key element.tags "building"

/-! ### translation.py : icon classification -/

/-- Icon tables: tag key → (tag value → icon path). -/
abbrev IconMap := List (String × List (String × String))

/-- The `recreation_list` literal from `get_icon_for_element`. -/
def recreation_list : List String :=
  ["bar", "bbq", "brothel", "cafe", "cinema", "food_court",
   "marketplace", "nightclub", "restaurant", "swinger_club",
   "theatre", "vending_machine"]

/-- The `"amenity"` sub-table of `ICON_MAP`. -/
def amenity_table : List (String × String) :=
  [("bar", "icons/amenity_recreational.svg"),
   ("bbq", "icons/amenity_recreational.svg"),
   ("brothel", "icons/amenity_recreational.svg"),
   ("cafe", "icons/amenity_recreational.svg"),
   ("cinema", "icons/amenity_recreational.svg"),
   ("food_court", "icons/amenity_recreational.svg"),
   ("marketplace", "icons/amenity_recreational.svg"),
   ("nightclub", "icons/amenity_recreational.svg"),
   ("restaurant", "icons/amenity_recreational.svg"),
   ("swinger_club", "icons/amenity_recreational.svg"),
   ("theatre", "icons/amenity_recreational.svg"),
   ("vending_machine", "icons/amenity_recreational.svg"),
   ("bicycle_parking", "icons/amenity_vehicle.svg"),
   ("bicycle_rental", "icons/amenity_vehicle.svg"),
   ("car_rental", "icons/amenity_vehicle.svg"),
   ("car_sharing", "icons/amenity_vehicle.svg"),
   ("fuel", "icons/amenity_vehicle.svg"),
   ("parking", "icons/amenity_vehicle.svg"),
   ("charging_station", "icons/amenity_charging_station.svg"),
   ("clinic", "icons/health.svg"),
   ("dentist", "icons/health.svg"),
   ("doctors", "icons/health.svg"),
   ("hospital", "icons/health.svg"),
   ("pharmacy", "icons/health.svg"),
   ("college", "icons/amenity_education.svg"),
   ("kindergarten", "icons/amenity_education.svg"),
   ("school", "icons/amenity_education.svg"),
   ("courthouse", "icons/amenity_public_building.svg"),
   ("fire_station", "icons/emergency_fire_station.svg"),
   ("police", "icons/emergency_police.svg"),
   ("ferry_terminal", "icons/amenity_ferry_terminal.svg"),
   ("grave_yard", "icons/amenity_grave_yard.svg"),
   ("library", "icons/amenity_library.svg"),
   ("place_of_worship", "icons/amenity_place_of_worship.svg"),
   ("post_box", "icons/amenity_post.svg"),
   ("post_office", "icons/amenity_post.svg"),
   ("prison", "icons/amenity_prison.svg"),
   ("public_building", "icons/amenity_public_building.svg"),
   ("recycling", "icons/amenity_recycling.svg"),
   ("shelter", "icons/amenity_shelter.svg"),
   ("taxi", "icons/amenity_taxi.svg"),
   ("telephone", "icons/amenity_telephone.svg"),
   ("toilets", "icons/amenity_toilets.svg"),
   ("townhall", "icons/amenity_public_building.svg"),
   ("drinking_water", "icons/water.svg"),
   ("water_point", "icons/water.svg"),
   ("_default", "icons/amenity.svg")]

/-- The `"natural"` sub-table of `ICON_MAP`. -/
def natural_table : List (String × String) :=
  [("_default", "icons/natural.svg")]

/-- The `"emergency"` sub-table of `ICON_MAP`. -/
def emergency_table : List (String × String) :=
  [("ambulance_station", "icons/emergency_ambulance_station.svg"),
   ("fire_station", "icons/emergency_fire_station.svg"),
   ("lifeguard_station", "icons/emergency_lifeguard_station.svg"),
   ("police", "icons/emergency_police.svg"),
   ("first_aid", "icons/emergency_first_aid.svg"),
   ("defibrillator", "icons/emergency_first_aid.svg"),
   ("assembly_point", "icons/emergency_assembly_point.svg"),
   ("_default", "icons/emergency.svg")]

/-- The `"_global_default"` sub-table of `ICON_MAP`. -/
def global_default_table : List (String × String) :=
  [("_default", "icons/default.svg")]

/-- `ICON_MAP` from translation.py, in source order. -/
def ICON_MAP : IconMap :=
  [("amenity", amenity_table),
   ("natural", natural_table),
   ("emergency", emergency_table),
   ("aerialway", [("_default", "icons/aerialway.svg")]),
   ("aeroway", [("_default", "icons/aerialway.svg")]),
   ("barrier", [("_default", "icons/barrier.svg")]),
   ("boundary", [("_default", "icons/barrier.svg")]),
   ("building", [("_default", "icons/building.svg")]),
   ("craft", [("_default", "icons/craft.svg")]),
   ("geological", [("_default", "icons/geological.svg")]),
   ("healthcare", [("_default", "icons/health.svg")]),
   ("highway", [("_default", "icons/highway.svg")]),
   ("historic", [("_default", "icons/historic.svg")]),
   ("landuse", [("_default", "icons/landuse.svg")]),
   ("leisure", [("_default", "icons/leisure.svg")]),
   ("man_made", [("_default", "icons/man_made.svg")]),
   ("military", [("_default", "icons/military.svg")]),
   ("office", [("_default", "icons/office.svg")]),
   ("place", [("_default", "icons/place.svg")]),
   ("power", [("_default", "icons/power.svg")]),
   ("public_transport", [("_default", "icons/public_transport.svg")]),
   ("railway", [("_default", "icons/route.svg")]),
   ("route", [("_default", "icons/route.svg")]),
   ("shop", [("_default", "icons/shop.svg")]),
   ("telecom", [("_default", "icons/telecom.svg")]),
   ("tourism", [("_default", "icons/tourism.svg")]),
   ("water", [("_default", "icons/water.svg")]),
   ("waterway", [("_default", "icons/water.svg")]),
   ("_global_default", global_default_table)]

/-- The tag loop of `get_icon_for_element`, iterating the tag dict in stored
order. `none` models a `KeyError` raised by a bracket lookup on `icon_map`
(impossible for `ICON_MAP` itself); the eager Python default-argument
expressions (`icon_map['amenity']['_default']`,
`icon_map['_global_default']['_default']`) are evaluated before the `.get`
resolves, exactly as in the source. -/
def icon_for_tags (tags : Tags) (icon_map : IconMap) : Option String :=
  match tags with
  | [] =>
      -- global fallback after the loop
      (dget icon_map "_global_default").bind (fun g => dget g "_default")
  | (key, value) :: rest =>
      if key == "amenity" then
        (dget icon_map "amenity").bind (fun sub =>
          (dget sub "_default").bind (fun dflt =>
            if recreation_list.contains value then
              some ((dget sub value).getD dflt)
            else
              some ((dget sub value).getD dflt)))
      else if key == "emergency" then
        (dget icon_map "emergency").bind (fun sub =>
          (dget sub "_default").bind (fun dflt =>
            some ((dget sub value).getD dflt)))
      else if key == "natural" then
        (dget icon_map "natural").bind (fun sub => dget sub "_default")
      else
        match dget icon_map key with
        | some sub =>
            (dget icon_map "_global_default").bind (fun g =>
              (dget g "_default").bind (fun gd =>
                some ((dget sub "_default").getD gd)))
        | none => icon_for_tags rest icon_map

/-- `get_icon_for_element(element, icon_map)` from translation.py. -/
def get_icon_for_element (element : ExtractedElement) (icon_map : IconMap) : Option String :=
  icon_for_tags element.tags icon_map

/-- The plain sub-table lookup
`icon_map['amenity'].get(value, icon_map['amenity']['_default'])`, written
from the claim about the amenity branch, to be compared with the branch's
actual result. -/
def plain_amenity_lookup (icon_map : IconMap) (value : String) : Option String :=
  (dget icon_map "amenity").bind (fun sub =>
    (dget sub "_default").bind (fun dflt =>
      some ((dget sub value).getD dflt)))

/-! ### translation.py : elevation and the orchestrator -/

/-- The JSON payload of an elevation response: `results = none` models a JSON
object without a `results` key; each entry is the entry's `elevation` field,
`none` when that field is absent. -/
structure ElevData where
  results : Option (List (Option Rat))
deriving DecidableEq

/-- `get_elevation(lat, lon)` from translation.py, with the
`requests.get` + `r.json()` layer injected as `fetch` (an `Except.error`
models either of them raising; the code catches nothing). -/
def get_elevation (fetch : Rat → Rat → Except Unit ElevData) (lat lon : Rat) :
    Except Unit Rat :=
  (fetch lat lon).bind (fun data =>
    match data.results with
    | some (r :: _) => Except.ok (r.getD 0)
    | _ => Except.ok 0)

/-- The value `get_elevation` extracts from a successfully parsed payload. -/
def elev_of_data (d : ElevData) : Rat :=
  match d.results with
  | some (r :: _) => r.getD 0
  | _ => 0

/-- `lonLatToMeters(lon, lat)` from translation.py, over exact reals. -/
noncomputable def lonLatToMeters (lon lat : Rat) : ℝ × ℝ :=
  let RADIUS : ℝ := 6378137
  ((lon : ℝ) * RADIUS * Real.pi / 180,
   Real.log (Real.tan ((90 + (lat : ℝ)) * Real.pi / 360)) * RADIUS)

/-- The fully processed per-feature record returned by `process_element`
(the `**height_info` splat is kept as a nested triple). -/
structure ProcessedFeature where
  id : Int
  points : List GeoPoint
  centroid : GeoPoint
  xy : ℝ × ℝ
  base_elev : Rat
  height_info : HeightInfo
  tags : Tags
  icon : String

/-- `KeyError` propagation: an `Option`-valued lookup inside exception-raising
code. -/
def opt_to_exc {α : Type} : Option α → Except Unit α
  | some a => Except.ok a
  | none => Except.error ()

/-- `process_element(element, icon_map)` from translation.py, with the
elevation HTTP layer injected as `fetch`. Uncaught exceptions (from the
elevation call or a `KeyError`) propagate. -/
noncomputable def process_element (fetch : Rat → Rat → Except Unit ElevData)
    (icon_map : IconMap) (element : ExtractedElement) :
    Except Unit ProcessedFeature :=
  let lat := (element.points.map GeoPoint.lat).sum / (element.points.length : Rat)
  let lon := (element.points.map GeoPoint.lon).sum / (element.points.length : Rat)
  (get_elevation fetch lat lon).bind (fun base_elev =>
    let height_info := if is_building element then parse_height element.tags
      else zero_height_info
    (opt_to_exc (get_icon_for_element element icon_map)).bind (fun icon =>
      let xy := lonLatToMeters lon lat
      Except.ok
        { id := element.id
          points := element.points
          centroid := { lat := lat, lon := lon }
          xy := xy
          base_elev := base_elev
          height_info := height_info
          tags := element.tags
          icon := icon }))

/-- `process_osm_json(json_string)` from translation.py. The `parsed` argument
is the outcome of `json.loads(json_string)`: `Except.error` models the string
not being valid JSON (or not a JSON object), which raises before extraction
can begin. -/
noncomputable def process_osm_json (parsed : Except Unit OsmJson)
    (fetch : Rat → Rat → Except Unit ElevData) :
    Except Unit (List ProcessedFeature) :=
  parsed.bind (fun osm_data =>
    let all_elements := extract_elements osm_data
    all_elements.mapM (process_element fetch ICON_MAP))

/-! ### Definitions written from the spec, for comparison -/

/-- The way records of an input list (spec side: "for each way record"). -/
def way_of (el : OsmElement) : Option (Int × List Int × Tags) :=
  match el with
  | .way i ns tg => some (i, ns, tg)
  | _ => none

/-- Spec side: resolve one way record against the node table, dropping
references that do not resolve, and keep it only if at least one point
resolved. -/
def resolve_way (tbl : List (Int × GeoPoint)) (w : Int × List Int × Tags) :
    Option ExtractedElement :=
  let pts := w.2.1.filterMap (lookup_node tbl)
  if pts.isEmpty then none
  else some { points := pts, tags := w.2.2, id := w.1, type := "way" }

/-- Extraction written from the spec: build the node table from all node
records in one pass, then take the way records in input order and resolve
each against that table. -/
def spec_extract (els : List OsmElement) : List ExtractedElement :=
  (els.filterMap way_of).filterMap (resolve_way (node_table els))

/-- Numeric-tag parsing written from the claim: strip surrounding whitespace
and a trailing `m` unit suffix (case-insensitively), then parse as a float. -/
def spec_safe_float (value : String) : Option Rat :=
  let cs := strip_chars value.data
  let cs2 :=
    match cs.reverse with
    | c :: r => if c.toLower == 'm' then r.reverse else cs
    | [] => cs
  py_float ⟨strip_chars cs2⟩

/-- The height fallback chain written from the claim, using the claim's
trailing-suffix parsing: the `height` tag when it parses, else
`building:levels` times 3.0, else 10.0 for buildings and 0.0 otherwise. -/
def spec_height_chain (tags : Tags) : Rat :=
  match spec_safe_float (dgetD tags "height" "") with
  | some h => h
  | none =>
      match spec_safe_float (dgetD tags "building:levels" "") with
      | some l => l * 3
      | none => if has_key tags "building" then 10 else 0

/-- The same fallback chain built on the code's actual `safe_float`
(which removes every `m` character, not only a trailing suffix). -/
def height_fallback_chain (tags : Tags) : Rat :=
  match safe_float (dgetD tags "height" "") with
  | some h => h
  | none =>
      match safe_float (dgetD tags "building:levels" "") with
      | some l => l * 3
      | none => if has_key tags "building" then 10 else 0

/-- True when no tag key matches any classification rule: the key is none of
the special-cased categories and is not a top-level key of `ICON_MAP`. -/
def no_rule_match (tags : Tags) : Bool :=
  tags.all (fun kv =>
    !(kv.1 == "amenity") && !(kv.1 == "emergency") && !(kv.1 == "natural") &&
      (dget ICON_MAP kv.1).isNone)

/-! ### Helper lemmas -/

/-- A successful dict lookup returns one of the dict's values. -/
theorem dget_mem {α : Type} {d : List (String × α)} {k : String} {x : α}
    (h : dget d k = some x) : x ∈ d.map Prod.snd := by
  unfold dget at h
  cases hf : d.reverse.find? (fun e => e.1 == k) with
  | none => rw [hf] at h; simp at h
  | some p =>
      rw [hf] at h
      have h2 : p.2 = x := by simpa using h
      subst h2
      exact List.mem_map_of_mem Prod.snd (List.mem_reverse.mp (List.mem_of_find?_eq_some hf))

/-- Every icon path stored in any sub-table of `ICON_MAP` is non-empty. -/
theorem subtable_values_nonempty :
    ∀ sub ∈ ICON_MAP.map Prod.snd, ∀ s ∈ sub.map Prod.snd, s ≠ "" := by decide

/-- `ICON_MAP` lookups used by the classifier's branches. -/
theorem dget_amenity : dget ICON_MAP "amenity" = some amenity_table := rfl

/-- Default entry of the amenity sub-table. -/
theorem dget_amenity_default :
    dget amenity_table "_default" = some "icons/amenity.svg" := rfl

/-- Emergency sub-table lookup. -/
theorem dget_emergency : dget ICON_MAP "emergency" = some emergency_table := rfl

/-- Default entry of the emergency sub-table. -/
theorem dget_emergency_default :
    dget emergency_table "_default" = some "icons/emergency.svg" := rfl

/-- Natural sub-table lookup. -/
theorem dget_natural : dget ICON_MAP "natural" = some natural_table := rfl

/-- Default entry of the natural sub-table. -/
theorem dget_natural_default :
    dget natural_table "_default" = some "icons/natural.svg" := rfl

/-- Global-fallback sub-table lookup. -/
theorem dget_global : dget ICON_MAP "_global_default" = some global_default_table := rfl

/-- The global fallback icon. -/
theorem dget_global_default :
    dget global_default_table "_default" = some "icons/default.svg" := rfl

/-- One step of the classifier on an `amenity` tag. -/
theorem icon_amenity_step (k v : String) (rest : Tags) (hk1 : (k == "amenity") = true) :
    icon_for_tags ((k, v) :: rest) ICON_MAP
      = some ((dget amenity_table v).getD "icons/amenity.svg") := by
  simp [icon_for_tags, hk1, dget_amenity, dget_amenity_default]

/-- One step of the classifier on an `emergency` tag. -/
theorem icon_emergency_step (k v : String) (rest : Tags)
    (hk1 : (k == "amenity") = false) (hk2 : (k == "emergency") = true) :
    icon_for_tags ((k, v) :: rest) ICON_MAP
      = some ((dget emergency_table v).getD "icons/emergency.svg") := by
  simp [icon_for_tags, hk1, hk2, dget_emergency, dget_emergency_default]

/-- One step of the classifier on a `natural` tag. -/
theorem icon_natural_step (k v : String) (rest : Tags)
    (hk1 : (k == "amenity") = false) (hk2 : (k == "emergency") = false)
    (hk3 : (k == "natural") = true) :
    icon_for_tags ((k, v) :: rest) ICON_MAP = some "icons/natural.svg" := by
  simp [icon_for_tags, hk1, hk2, hk3, dget_natural, dget_natural_default]

/-- One step of the classifier on any other table-listed key. -/
theorem icon_table_step (k v : String) (rest : Tags) (sub : List (String × String))
    (hk1 : (k == "amenity") = false) (hk2 : (k == "emergency") = false)
    (hk3 : (k == "natural") = false) (hdg : dget ICON_MAP k = some sub) :
    icon_for_tags ((k, v) :: rest) ICON_MAP
      = some ((dget sub "_default").getD "icons/default.svg") := by
  simp [icon_for_tags, hk1, hk2, hk3, hdg, dget_global, dget_global_default]

/-- One step of the classifier on a key matching no rule. -/
theorem icon_skip_step (k v : String) (rest : Tags)
    (hk1 : (k == "amenity") = false) (hk2 : (k == "emergency") = false)
    (hk3 : (k == "natural") = false) (hdg : dget ICON_MAP k = none) :
    icon_for_tags ((k, v) :: rest) ICON_MAP = icon_for_tags rest ICON_MAP := by
  simp [icon_for_tags, hk1, hk2, hk3, hdg]

/-- The classifier, run against `ICON_MAP`, always succeeds with a non-empty
icon path. -/
theorem icon_total (tags : Tags) :
    ∃ s, icon_for_tags tags ICON_MAP = some s ∧ s ≠ "" := by
  induction tags with
  | nil => exact ⟨"icons/default.svg", rfl, by decide⟩
  | cons kv rest ih =>
      obtain ⟨k, v⟩ := kv
      cases hk1 : k == "amenity" with
      | true =>
          cases hv : dget amenity_table v with
          | some s =>
              refine ⟨s, by rw [icon_amenity_step k v rest hk1, hv]; rfl, ?_⟩
              exact subtable_values_nonempty amenity_table (by decide) s
                (dget_mem hv)
          | none =>
              exact ⟨"icons/amenity.svg",
                by rw [icon_amenity_step k v rest hk1, hv]; rfl, by decide⟩
      | false =>
      cases hk2 : k == "emergency" with
      | true =>
          cases hv : dget emergency_table v with
          | some s =>
              refine ⟨s, by rw [icon_emergency_step k v rest hk1 hk2, hv]; rfl, ?_⟩
              exact subtable_values_nonempty emergency_table (by decide) s
                (dget_mem hv)
          | none =>
              exact ⟨"icons/emergency.svg",
                by rw [icon_emergency_step k v rest hk1 hk2, hv]; rfl, by decide⟩
      | false =>
      cases hk3 : k == "natural" with
      | true =>
          exact ⟨"icons/natural.svg", icon_natural_step k v rest hk1 hk2 hk3, by decide⟩
      | false =>
          cases hdg : dget ICON_MAP k with
          | some sub =>
              cases hd : dget sub "_default" with
              | some s =>
                  refine ⟨s,
                    by rw [icon_table_step k v rest sub hk1 hk2 hk3 hdg, hd]; rfl, ?_⟩
                  exact subtable_values_nonempty sub (dget_mem hdg) s (dget_mem hd)
              | none =>
                  exact ⟨"icons/default.svg",
                    by rw [icon_table_step k v rest sub hk1 hk2 hk3 hdg, hd]; rfl,
                    by decide⟩
          | none =>
              rw [icon_skip_step k v rest hk1 hk2 hk3 hdg]
              exact ih

/-- When no tag key matches any rule, the classifier falls through to the
global fallback icon. -/
theorem icon_fallback (tags : Tags) (h : no_rule_match tags = true) :
    icon_for_tags tags ICON_MAP = some "icons/default.svg" := by
  induction tags with
  | nil => rfl
  | cons kv rest ih =>
      obtain ⟨k, v⟩ := kv
      simp only [no_rule_match, List.all_cons, Bool.and_eq_true, Bool.not_eq_true',
        Option.isNone_iff_eq_none] at h
      obtain ⟨⟨⟨⟨h1, h2⟩, h3⟩, h4⟩, hrest⟩ := h
      rw [icon_skip_step k v rest h1 h2 h3 h4]
      exact ih hrest

/-- The code's extraction coincides with the two-pass extraction written from
the spec. -/
theorem extract_eq_spec (els : List OsmElement) :
    extract_elements ⟨some els⟩ = spec_extract els := by
  unfold extract_elements spec_extract
  rw [List.filterMap_filterMap]
  show List.filterMap (extract_one (node_table els)) els
    = List.filterMap (fun x => (way_of x).bind (resolve_way (node_table els))) els
  congr 1
  funext el
  cases el <;> rfl

/-- Extracted elements always carry at least one resolved point. -/
theorem extract_points_nonempty (osm : OsmJson) (e : ExtractedElement)
    (he : e ∈ extract_elements osm) : e.points ≠ [] := by
  unfold extract_elements at he
  rw [List.mem_filterMap] at he
  obtain ⟨el, _, hfe⟩ := he
  cases el with
  | node i la lo => exact absurd hfe (by simp [extract_one])
  | other => exact absurd hfe (by simp [extract_one])
  | way i ns tg =>
      have hfe2 : (if (ns.filterMap (lookup_node (node_table (osm.elements.getD [])))).isEmpty
            then (none : Option ExtractedElement)
            else some { points := ns.filterMap (lookup_node (node_table (osm.elements.getD []))),
                        tags := tg, id := i, type := "way" }) = some e := hfe
      by_cases hpt : (ns.filterMap (lookup_node (node_table (osm.elements.getD [])))).isEmpty
      · rw [if_pos hpt] at hfe2; exact absurd hfe2 (by simp)
      · rw [if_neg hpt] at hfe2
        have h2 := Option.some.inj hfe2
        subst h2
        intro hnil
        exact hpt (by rw [show ns.filterMap (lookup_node (node_table (osm.elements.getD [])))
          = ([] : List GeoPoint) from hnil]; rfl)

/-- When the HTTP + JSON layer succeeds, `get_elevation` succeeds and returns
the extracted value. -/
theorem get_elevation_ok (fetch : Rat → Rat → Except Unit ElevData) (lat lon : Rat)
    (d : ElevData) (hd : fetch lat lon = Except.ok d) :
    get_elevation fetch lat lon = Except.ok (elev_of_data d) := by
  unfold get_elevation
  rw [hd]
  obtain ⟨res⟩ := d
  cases res with
  | none => rfl
  | some l => cases l with
    | nil => rfl
    | cons r t => rfl

/-- When the HTTP + JSON layer raises, `get_elevation` propagates the
exception (nothing in the source catches it). -/
theorem get_elevation_err (fetch : Rat → Rat → Except Unit ElevData) (lat lon : Rat)
    (e : Unit) (hd : fetch lat lon = Except.error e) :
    get_elevation fetch lat lon = Except.error e := by
  unfold get_elevation
  rw [hd]
  rfl

/-- A failing elevation layer makes `process_element` raise. -/
theorem process_element_fail (el : ExtractedElement) (icon_map : IconMap) :
    process_element (fun _ _ => Except.error ()) icon_map el = Except.error () := rfl

/-- With a succeeding elevation layer whose payload carries no `results`,
`process_element` succeeds with base elevation 0. -/
theorem process_element_ok_zero (fetch : Rat → Rat → Except Unit ElevData)
    (hfetch : ∀ la lo, fetch la lo = Except.ok ⟨none⟩) (el : ExtractedElement) :
    ∃ f, process_element fetch ICON_MAP el = Except.ok f ∧ f.base_elev = 0 := by
  obtain ⟨s, hs, _⟩ := icon_total el.tags
  simp only [process_element, get_icon_for_element]
  rw [get_elevation_ok fetch _ _ ⟨none⟩ (hfetch _ _)]
  simp only [Except.bind]
  rw [hs]
  exact ⟨_, rfl, rfl⟩

/-- Batch version of `process_element_ok_zero`. -/
theorem mapM_ok_zero (fetch : Rat → Rat → Except Unit ElevData)
    (hfetch : ∀ la lo, fetch la lo = Except.ok ⟨none⟩) (es : List ExtractedElement) :
    ∃ l, es.mapM (process_element fetch ICON_MAP) = Except.ok l
      ∧ ∀ f ∈ l, f.base_elev = 0 := by
  induction es with
  | nil => exact ⟨[], rfl, by simp⟩
  | cons e es ih =>
      obtain ⟨f, hf, hf0⟩ := process_element_ok_zero fetch hfetch e
      obtain ⟨l, hl, hl0⟩ := ih
      refine ⟨f :: l, ?_, ?_⟩
      · rw [List.mapM_cons, hf, hl]
        rfl
      · intro g hg
        rcases List.mem_cons.mp hg with h | h
        · rw [h]; exact hf0
        · exact hl0 g h

/-- `parse_height`'s height field follows the documented fallback chain
(built on the code's own `safe_float`). -/
theorem parse_height_eq_chain (tags : Tags) :
    (parse_height tags).height = height_fallback_chain tags := by
  unfold parse_height height_fallback_chain
  cases h1 : safe_float (dgetD tags "height" "") <;>
    cases h2 : safe_float (dgetD tags "building:levels" "") <;>
      simp [h1, h2]

/-! ### Claims -/

/-- Claim C1, counterexample: a failing elevation fetch (network error or
malformed response) aborts the whole `process_osm_json` call instead of
degrading to 0.0. -/
theorem c1_counterexample :
    process_osm_json
      (Except.ok ⟨some [OsmElement.node 1 1 2, OsmElement.way 5 [1] []]⟩)
      (fun _ _ => Except.error ())
      = Except.error () := rfl

/-- Claim C1, amended: only a parsed elevation payload with missing or empty
results (or a missing elevation field) degrades to 0.0 and lets the batch
continue; an exception from the HTTP request or JSON parsing propagates out of
`process_osm_json` and aborts the whole batch. -/
theorem c1_amended :
    (∀ fetch lat lon d, fetch lat lon = Except.ok d →
        get_elevation fetch lat lon = Except.ok (elev_of_data d))
    ∧ (∀ d : ElevData, d.results = none ∨ d.results = some [] → elev_of_data d = 0)
    ∧ (∀ rest, elev_of_data ⟨some (none :: rest)⟩ = 0)
    ∧ (∀ fetch lat lon e, fetch lat lon = Except.error e →
        get_elevation fetch lat lon = Except.error e)
    ∧ (∀ fetch osm, (∀ la lo, fetch la lo = Except.ok ⟨none⟩) →
        ∃ l, process_osm_json (Except.ok osm) fetch = Except.ok l
          ∧ ∀ f ∈ l, f.base_elev = 0)
    ∧ (∀ osm, extract_elements osm ≠ [] →
        process_osm_json (Except.ok osm) (fun _ _ => Except.error ())
          = Except.error ()) := by
  refine ⟨get_elevation_ok, ?_, fun rest => rfl, get_elevation_err, ?_, ?_⟩
  · intro d h
    obtain ⟨res⟩ := d
    rcases h with h | h
    · rw [show res = none from h]; rfl
    · rw [show res = some [] from h]; rfl
  · intro fetch osm hf
    obtain ⟨l, hl, h0⟩ := mapM_ok_zero fetch hf (extract_elements osm)
    exact ⟨l, hl, h0⟩
  · intro osm hne
    obtain ⟨e, es, heq⟩ := List.exists_cons_of_ne_nil hne
    show (extract_elements osm).mapM
      (process_element (fun _ _ => Except.error ()) ICON_MAP) = Except.error ()
    rw [heq, List.mapM_cons, process_element_fail e ICON_MAP]
    rfl

/-- Claim C1 witness: with a succeeding fetch whose payload has no results,
the batch completes and every feature has base elevation 0. -/
theorem c1_amended_witness :
    ∃ l, process_osm_json
        (Except.ok ⟨some [OsmElement.node 1 1 2, OsmElement.way 5 [1] []]⟩)
        (fun _ _ => Except.ok ⟨none⟩)
        = Except.ok l ∧ ∀ f ∈ l, f.base_elev = 0 :=
  c1_amended.2.2.2.2.1 (fun _ _ => Except.ok ⟨none⟩)
    ⟨some [OsmElement.node 1 1 2, OsmElement.way 5 [1] []]⟩ (fun _ _ => rfl)

/-- Claim C2, counterexample: an input whose `elements` key is missing does
not fail; `process_osm_json` returns an (empty) output list. -/
theorem c2_counterexample :
    process_osm_json (Except.ok ⟨none⟩) (fun _ _ => Except.error ())
      = Except.ok [] := rfl

/-- Claim C2, amended: a string that is not valid JSON is fatal for the whole
`process_osm_json` call (the `json.loads` exception propagates, no partial
output); a missing `elements` key is not an error: extraction treats it as an
empty element list and the call returns an empty output list. -/
theorem c2_amended :
    (∀ (e : Unit) fetch, process_osm_json (Except.error e) fetch = Except.error e)
    ∧ (∀ osm fetch, osm.elements = none →
        process_osm_json (Except.ok osm) fetch = Except.ok []) := by
  refine ⟨fun e fetch => rfl, ?_⟩
  intro osm fetch h
  obtain ⟨res⟩ := osm
  rw [show res = none from h]
  rfl

/-- Claim C2 witness: the amended behavior at a concrete input with the
`elements` key missing. -/
theorem c2_amended_witness :
    process_osm_json (Except.ok ⟨none⟩) (fun _ _ => Except.ok ⟨none⟩)
      = Except.ok [] :=
  c2_amended.2 ⟨none⟩ (fun _ _ => Except.ok ⟨none⟩) rfl

/-- Claim C3 (confirmed): every HeightInfo built by `parse_height` satisfies
`effective_height = max 0 (height - min_height)`, and so does the zero
HeightInfo the orchestrator synthesizes for non-building elements. -/
theorem c3_effective_height_invariant (tags : Tags) :
    (parse_height tags).effective_height
      = max 0 ((parse_height tags).height - (parse_height tags).min_height)
    ∧ zero_height_info.effective_height
      = max 0 (zero_height_info.height - zero_height_info.min_height) :=
  ⟨rfl, by simp [zero_height_info]⟩

/-- Claim C4, counterexample: a negative `height` tag value parses and makes
the returned height negative. -/
theorem c4_counterexample : (parse_height [("height", "-5")]).height < 0 := by
  have h : (parse_height [("height", "-5")]).height = -(((5 : Nat) : Rat) * 1) := rfl
  rw [h]; norm_num

/-- Claim C4, amended: only `effective_height` is guaranteed non-negative;
`height` (and likewise `min_height`) can be negative when a tag carries a
negative numeric string. -/
theorem c4_amended (tags : Tags) : 0 ≤ (parse_height tags).effective_height :=
  le_max_left 0 _

/-- Claim C5 (confirmed): the classifier always returns a non-empty icon
string, and falls through to the single global fallback when no tag key
matches any rule (in particular for the empty mapping). -/
theorem c5_classifier_total (tags : Tags) :
    (∃ s, icon_for_tags tags ICON_MAP = some s ∧ s ≠ "")
    ∧ (no_rule_match tags = true →
        icon_for_tags tags ICON_MAP = some "icons/default.svg") :=
  ⟨icon_total tags, icon_fallback tags⟩

/-- Claim C5 witness: a tag mapping matching no rule gets the global
fallback icon. -/
theorem c5_classifier_total_witness :
    icon_for_tags [("foo", "bar")] ICON_MAP = some "icons/default.svg" :=
  (c5_classifier_total [("foo", "bar")]).2 (by decide)

/-- Claim C6, counterexample: for the tag value "1m5" the code's height (15.0,
from removing every "m") differs from the claimed trailing-suffix parse
(which fails and falls through to the 0.0 default). -/
theorem c6_counterexample :
    (parse_height [("height", "1m5")]).height = 15
    ∧ spec_height_chain [("height", "1m5")] = 0
    ∧ (15 : Rat) ≠ 0 := by
  refine ⟨?_, rfl, by norm_num⟩
  have h : (parse_height [("height", "1m5")]).height = ((15 : Nat) : Rat) * 1 := rfl
  rw [h]; norm_num

/-- Claim C6, amended: the height field follows the claimed fallback chain
(height tag, else building:levels x 3.0, else 10.0 for buildings and 0.0
otherwise, malformed strings treated as absent), with the parsing step
removing every "m" character (case-insensitively) and stripping surrounding
whitespace, not only a trailing unit suffix. -/
theorem c6_amended (tags : Tags) :
    (parse_height tags).height = height_fallback_chain tags :=
  parse_height_eq_chain tags

/-- Claim C7 (confirmed): the classifier walks tag keys in stored order and
the first matching key decides: `natural` always yields the natural default
regardless of value, other table-listed keys yield their sub-table default
without inspecting the value, non-matching keys are skipped, and the
amenity/emergency branches ignore everything after the first match. -/
theorem c7_first_match_wins (k v : String) (rest : Tags) :
    (icon_for_tags (("natural", v) :: rest) ICON_MAP = some "icons/natural.svg")
    ∧ (∀ sub, (k == "amenity") = false → (k == "emergency") = false →
        (k == "natural") = false → dget ICON_MAP k = some sub →
        icon_for_tags ((k, v) :: rest) ICON_MAP
          = some ((dget sub "_default").getD "icons/default.svg"))
    ∧ ((k == "amenity") = false → (k == "emergency") = false →
        (k == "natural") = false → dget ICON_MAP k = none →
        icon_for_tags ((k, v) :: rest) ICON_MAP = icon_for_tags rest ICON_MAP)
    ∧ (icon_for_tags (("amenity", v) :: rest) ICON_MAP
        = icon_for_tags [("amenity", v)] ICON_MAP)
    ∧ (icon_for_tags (("emergency", v) :: rest) ICON_MAP
        = icon_for_tags [("emergency", v)] ICON_MAP) := by
  refine ⟨?_, ?_, ?_, ?_, ?_⟩
  · exact icon_natural_step "natural" v rest (by decide) (by decide) (by decide)
  · exact fun sub h1 h2 h3 h4 => icon_table_step k v rest sub h1 h2 h3 h4
  · exact fun h1 h2 h3 h4 => icon_skip_step k v rest h1 h2 h3 h4
  · exact (icon_amenity_step "amenity" v rest (by decide)).trans
      (icon_amenity_step "amenity" v [] (by decide)).symm
  · exact (icon_emergency_step "emergency" v rest (by decide) (by decide)).trans
      (icon_emergency_step "emergency" v [] (by decide) (by decide)).symm

/-- Claim C7 witness: a `shop` tag wins over a later `natural` tag and yields
the shop default icon without inspecting the value. -/
theorem c7_first_match_wins_witness :
    icon_for_tags [("shop", "x"), ("natural", "y")] ICON_MAP
      = some "icons/shop.svg" :=
  ((c7_first_match_wins "shop" "x" [("natural", "y")]).2.1
    [("_default", "icons/shop.svg")] (by decide) (by decide) (by decide) rfl).trans
    (by decide)

/-- Claim C8 (confirmed): extraction resolves way references against the node
table built from all node records, drops unresolvable references, keeps a way
only when at least one point resolved, and preserves the input order of way
records; concretely, a way with one resolvable and one unresolvable reference
yields exactly one point, and a way with none is dropped. -/
theorem c8_extract_behavior :
    (∀ els, extract_elements ⟨some els⟩ = spec_extract els)
    ∧ (∀ osm, ∀ e ∈ extract_elements osm, e.points ≠ [])
    ∧ extract_elements ⟨some [OsmElement.node 1 10 20, OsmElement.way 7 [1, 2] []]⟩
        = [{ points := [{ lat := 10, lon := 20 }], tags := [], id := 7, type := "way" }]
    ∧ extract_elements ⟨some [OsmElement.node 1 10 20, OsmElement.way 7 [2, 3] []]⟩
        = [] :=
  ⟨extract_eq_spec, fun osm e he => extract_points_nonempty osm e he,
    by decide, by decide⟩

/-- Claim C8 witness: the nonempty-points invariant at a concrete extraction. -/
theorem c8_extract_behavior_witness :
    ({ points := [{ lat := 10, lon := 20 }], tags := [], id := 7, type := "way" }
        : ExtractedElement).points ≠ [] :=
  c8_extract_behavior.2.1
    ⟨some [OsmElement.node 1 10 20, OsmElement.way 7 [1, 2] []]⟩ _ (by decide)

/-- Claim C10 (confirmed): the recreation-list check in the amenity branch is
dead code: for every icon table, value and remaining tags the branch equals
the plain amenity sub-table lookup, whether or not the value is in the
recreation list. -/
theorem c10_recreation_check_dead (icon_map : IconMap) (v : String) (rest : Tags) :
    icon_for_tags (("amenity", v) :: rest) icon_map
      = plain_amenity_lookup icon_map v := by
  simp [icon_for_tags, plain_amenity_lookup]
